import Mathlib

/-!
Shallow embedding of the cart-to-order checkout workflow and the
role-based authorization model of the `ecommerce-backend` repository.

Conventions of the embedding:
* Money (`price`, `subtotal`, `total_price`) is modelled as `ℚ`.  The source
  stores these as Python floats / SQL numerics; the arithmetic the services
  perform (`+`, `*`, `/`) is modelled exactly over the rationals.
* Quantities are `Int` (Python ints; the services compare them with `<= 0`).
* The datastore (the SQLAlchemy session's committed state) is an explicit
  `Store` record of lists of rows.  Each service function is translated so
  that the `Store` it returns is the *committed* state after the call,
  including the case where the call raises: a Python `ValueError` is an
  `Except.error` carrying the exact message string the source raises.
* `Model.query.get id` becomes `List.find?` on the id; `query.filter_by(...)
  .first()` becomes `List.find?` with the same predicate; relationship
  collections (`cart.items`) become `List.filter` by the foreign key.
-/

namespace Ecommerce

/-- `models/product.py`: columns used by the services
(`id`, `price`, `stock_quantity`, `deleted_at`); `deleted_at = some t`
models a soft-deleted row (timestamp abstracted to `Nat`). -/
structure Product where
  id : Nat
  price : ℚ
  stock_quantity : Nat
  deleted_at : Option Nat
deriving Repr, DecidableEq

/-- `models/shopping_cart.py`: `ShoppingCart` row (`id`, `customer_id`). -/
structure Cart where
  id : Nat
  customer_id : Nat
deriving Repr, DecidableEq

/-- `models/shopping_cart_item.py`: `ShoppingCartItem` row; `subtotal` is the
money column the cart services write. -/
structure CartItem where
  id : Nat
  cart_id : Nat
  product_id : Nat
  quantity : Int
  subtotal : ℚ
deriving Repr, DecidableEq

/-- `models/order.py`: `Order` row (`id`, `customer_id`, `total_price`). -/
structure Order where
  id : Nat
  customer_id : Nat
  total_price : ℚ
deriving Repr, DecidableEq

/-- `models/order_item.py`: `OrderItem` row; keyed by
`(order_id, product_id)` in the services (`query.filter_by`). -/
structure OrderItem where
  order_id : Nat
  product_id : Nat
  quantity : Int
  price_at_order : ℚ
  subtotal : ℚ
deriving Repr, DecidableEq

/-- The committed datastore: one list of rows per table, plus a fresh-id
counter standing for the autoincrement primary-key allocator. -/
structure Store where
  products : List Product
  customers : List Nat
  carts : List Cart
  cartItems : List CartItem
  orders : List Order
  orderItems : List OrderItem
  nextId : Nat
deriving Repr, DecidableEq

/-- The per-unit order-item payload built by `checkout_cart`
(`{"product_id": ..., "quantity": ..., "price_at_order": ...}`). -/
structure OrderItemInput where
  product_id : Nat
  quantity : Int
  price_at_order : ℚ
deriving Repr, DecidableEq

/-- The dict returned by `ShoppingCartService.checkout_cart`
(`order_id`, `total_price`, `items`). -/
structure CheckoutSummary where
  order_id : Nat
  total_price : ℚ
  items : List OrderItemInput
deriving Repr, DecidableEq

/-! ## Authorization (`utils/utils.py`) -/

/-- `utils/utils.py` lines 91–95 and the lookup `ROLE_HIERARCHY.get(role, 0)`
used at line 119: rank of a role string, defaulting to 0 for unknown roles. -/
def roleHierarchyGet (role : String) : Nat :=
  if role = "user" then 1
  else if role = "admin" then 2
  else if role = "super_admin" then 3
  else 0

/-- `utils/utils.py` line 119, the decision inside `role_required`:
the request is allowed unless
`ROLE_HIERARCHY.get(user_role, 0) < ROLE_HIERARCHY.get(required_role, 0)`. -/
def roleRequiredAllows (required_role user_role : String) : Bool :=
  !(roleHierarchyGet user_role < roleHierarchyGet required_role)

/-! ## User authentication (`services/user_service.py`, `routes/user_bp.py`) -/

/-- `User` row as used by `authenticate_user`
(`id`, `username`, `password_hash`, `role`). -/
structure User where
  id : Nat
  username : String
  password_hash : String
  role : String
deriving Repr, DecidableEq

/-- `services/user_service.py` lines 206–221, `UserService.authenticate_user`:
`User.query.filter_by(username=username).first()`, then
`check_password_hash(user.password_hash, password)`; both failure causes raise
`ValueError("Invalid username or password")`.  The password-hash check is the
abstract parameter `chk` (cryptographic hashing is outside the embedding). -/
def authenticate_user (chk : String → String → Bool) (users : List User)
    (username password : String) : Except String User :=
  match users.find? (fun u => u.username == username) with
  | some user => if chk user.password_hash password then .ok user
                 else .error "Invalid username or password"
  | none => .error "Invalid username or password"

/-- Response of `POST /users/login`: 200 with `encode_token(user.id, user.role)`,
or an error status with the `{"error": message}` body. -/
inductive LoginResponse where
  | token (user_id : Nat) (role : String)
  | err (status : Nat) (message : String)
deriving Repr, DecidableEq

/-- `routes/user_bp.py` lines 229–242, `login_user`: missing/empty username or
password → 400; `authenticate_user` raising `ValueError` → 401 with the
error's own message; success → 200 with `encode_token(user.id, user.role)`.
The empty string models a missing/falsy JSON field. -/
def login_user (chk : String → String → Bool) (users : List User)
    (username password : String) : LoginResponse :=
  if username = "" || password = "" then
    .err 400 "Both username and password are required."
  else
    match authenticate_user chk users username password with
    | .ok user => .token user.id user.role
    | .error e => .err 401 e

/-! ## Shopping-cart service (`services/shopping_cart_service.py`) -/

/-- `services/shopping_cart_service.py` lines 13–33,
`ShoppingCartService.get_cart_by_customer`: return the first cart with the
given `customer_id`, or create (and commit) an empty one. -/
def get_cart_by_customer (st : Store) (customer_id : Nat) : Store × Cart :=
  match st.carts.find? (fun c => c.customer_id == customer_id) with
  | some cart => (st, cart)
  | none =>
      let cart : Cart := { id := st.nextId, customer_id := customer_id }
      ({ st with carts := st.carts ++ [cart], nextId := st.nextId + 1 }, cart)

/-- `services/shopping_cart_service.py` lines 38–81,
`ShoppingCartService.add_item_to_cart`: rejects `quantity <= 0`; resolves the
cart (creating one if absent — that creation commits before the product
lookup); looks the product up with `Product.query.get(product_id)` (note: no
`deleted_at` filter); then either creates a new line with
`subtotal = product.price * quantity` or accumulates
`item.quantity += quantity; item.subtotal = item.quantity * product.price`.
The returned `Store` is the committed state, also on error. -/
def add_item_to_cart (st : Store) (customer_id product_id : Nat)
    (quantity : Int) : Store × Except String CartItem :=
  if quantity ≤ 0 then (st, .error "Quantity must be greater than zero.")
  else
    let sc := get_cart_by_customer st customer_id
    let st1 := sc.1
    let cart := sc.2
    match st1.products.find? (fun p => p.id == product_id) with
    | none => (st1, .error "Product not found.")
    | some product =>
        match st1.cartItems.find?
            (fun it => it.cart_id == cart.id && it.product_id == product_id) with
        | none =>
            let item : CartItem :=
              { id := st1.nextId, cart_id := cart.id, product_id := product_id,
                quantity := quantity, subtotal := product.price * (quantity : ℚ) }
            ({ st1 with cartItems := st1.cartItems ++ [item],
                        nextId := st1.nextId + 1 }, .ok item)
        | some item =>
            let newQty := item.quantity + quantity
            let item' : CartItem :=
              { item with quantity := newQty,
                          subtotal := (newQty : ℚ) * product.price }
            ({ st1 with cartItems :=
                st1.cartItems.map (fun it => if it.id == item.id then item' else it) },
             .ok item')

/-- `services/shopping_cart_service.py` lines 144–189,
`ShoppingCartService.checkout_cart`: resolve the cart; raise
`"Cannot checkout. Shopping cart is empty."` when it has no items
(lines 159–161).  The non-empty branch first builds the order-item payload
(lines 163–171) and then executes
`from services.order_service import OrderService` (line 174) — but loading
that module can never succeed: `services/order_service.py` line 1 is
`from models import db, Order, Order_Item, Product, Customer`, and the
`models` package exports `OrderItem`, not `Order_Item`
(`models/__init__.py`), so Python raises ImportError there (and even if the
module loaded, line 66 of `order_service.py` uses the unbound name
`OrderItem`).
The ImportError escapes `checkout_cart` with nothing committed, so checking
out a non-empty cart always fails with the committed datastore unchanged;
`OrderService.create_order` and the subsequent `clear_cart` call
(lines 177–183) are dead code.  The returned `Store` is the committed
state, also on error. -/
def checkout_cart (st : Store) (customer_id : Nat) :
    Store × Except String CheckoutSummary :=
  let sc := get_cart_by_customer st customer_id
  let st1 := sc.1
  let cart := sc.2
  let items := st1.cartItems.filter (fun it => it.cart_id == cart.id)
  if items.isEmpty then (st1, .error "Cannot checkout. Shopping cart is empty.")
  else (st1, .error "ImportError: cannot import name Order_Item from models")

/-! ## Cart-item service (`services/shopping_cart_item_service.py`) -/

/-- Modelled from the spec: `ShoppingCartItemService.get_item_by_id` is called
at `services/shopping_cart_item_service.py` lines 54 and 82 but is not defined
anywhere in the repository's sources; §4.2 of the spec says
`update_line_quantity` resolves the line by its id and fails with
`LineNotFound` when it does not exist, so the lookup is modelled as `find?`
on the item id. -/
def get_item_by_id (st : Store) (item_id : Nat) : Option CartItem :=
  st.cartItems.find? (fun it => it.id == item_id)

/-- `services/shopping_cart_item_service.py` lines 35–62,
`ShoppingCartItemService.update_item_quantity`: rejects `quantity <= 0` before
any lookup or write; resolves the item (`get_item_by_id`, spec-modelled, see
above) and its product (`item.product`, a non-null foreign key); then sets
`item.quantity = quantity; item.subtotal = quantity * product.price` and
commits.  A missing product row is unreachable under the schema's foreign-key
constraint and is modelled as an error with no change. -/
def update_item_quantity (st : Store) (item_id : Nat) (quantity : Int) :
    Store × Except String CartItem :=
  if quantity ≤ 0 then (st, .error "Quantity must be greater than zero.")
  else
    match get_item_by_id st item_id with
    | none => (st, .error "Item not found.")
    | some item =>
        match st.products.find? (fun p => p.id == item.product_id) with
        | none => (st, .error "Product not found.")
        | some product =>
            let item' : CartItem :=
              { item with quantity := quantity,
                          subtotal := (quantity : ℚ) * product.price }
            ({ st with cartItems :=
                st.cartItems.map (fun it => if it.id == item_id then item' else it) },
             .ok item')

/-! ## Order-item service (`services/order_item_service.py`) -/

/-- `services/order_item_service.py` lines 127–158,
`OrderItemService.update_item_in_order`: rejects `quantity <= 0`; resolves the
item by `(order_id, product_id)`; then sets
`item.quantity = quantity; item.subtotal = item.quantity * item.price_at_order`
and commits. -/
def update_item_in_order (st : Store) (order_id product_id : Nat)
    (quantity : Int) : Store × Except String OrderItem :=
  if quantity ≤ 0 then (st, .error "Quantity must be greater than zero.")
  else
    match st.orderItems.find?
        (fun it => it.order_id == order_id && it.product_id == product_id) with
    | none => (st, .error "Item not found in order.")
    | some item =>
        let item' : OrderItem :=
          { item with quantity := quantity,
                      subtotal := (quantity : ℚ) * item.price_at_order }
        let rows := st.orderItems.map
          (fun it => if it.order_id == order_id && it.product_id == product_id
                     then item' else it)
        ({ st with orderItems := rows }, .ok item')

/-! ## Product service (`services/product_service.py`) -/

/-- `services/product_service.py` lines 131–164, `ProductService.update_product`
called with a `price` keyword: requires the product to exist, requires the new
price to be non-negative, then writes only the product row's `price` column
and commits. -/
def update_product_price (st : Store) (product_id : Nat) (price : ℚ) :
    Store × Except String Product :=
  match st.products.find? (fun p => p.id == product_id) with
  | none => (st, .error "Product not found.")
  | some product =>
      if price < 0 then (st, .error "Price must be a non-negative number.")
      else
        let product' : Product := { product with price := price }
        ({ st with products :=
            st.products.map (fun p => if p.id == product_id then product' else p) },
         .ok product')

/-! ## Concrete stores used by witnesses and counterexamples -/

/-- Concrete store: customer 1 with cart 1 holding one line of product 1
(price 10, quantity 2, subtotal 20). -/
def checkoutStoreW : Store :=
  { products := [{ id := 1, price := 10, stock_quantity := 5, deleted_at := none }],
    customers := [1],
    carts := [{ id := 1, customer_id := 1 }],
    cartItems := [{ id := 2, cart_id := 1, product_id := 1, quantity := 2, subtotal := 20 }],
    orders := [], orderItems := [], nextId := 3 }

/-- Concrete store: customer 1 with cart 1 holding no lines. -/
def emptyCartStoreW : Store :=
  { products := [{ id := 1, price := 10, stock_quantity := 5, deleted_at := none }],
    customers := [1],
    carts := [{ id := 1, customer_id := 1 }],
    cartItems := [], orders := [], orderItems := [], nextId := 2 }

/-! ## Theorems about the claims -/

/-- C7: `roleRequiredAllows required actual` (the decision of `role_required`
in `utils/utils.py`) succeeds exactly when the rank of the actual role is ≥
the rank of the required role under user(1) < admin(2) < super_admin(3), and
any role string outside this set has rank 0 and is denied whenever the
required role is `user` or higher. -/
theorem authorize_iff_rank_ge :
    (∀ required actual : String,
       roleRequiredAllows required actual = true ↔
         roleHierarchyGet required ≤ roleHierarchyGet actual) ∧
    (∀ actual : String,
       actual ≠ "user" → actual ≠ "admin" → actual ≠ "super_admin" →
       roleHierarchyGet actual = 0 ∧
       ∀ required : String, 1 ≤ roleHierarchyGet required →
         roleRequiredAllows required actual = false) := by
  constructor
  · intro required actual
    simp [roleRequiredAllows, not_lt]
  · intro actual h1 h2 h3
    have hz : roleHierarchyGet actual = 0 := by
      simp [roleHierarchyGet, h1, h2, h3]
    refine ⟨hz, fun required hr => ?_⟩
    simp only [roleRequiredAllows, hz, Bool.not_eq_false', decide_eq_true_eq]
    omega

/-- Witness for C7: the unknown role string "guest" is denied where role
`user` is required. -/
theorem authorize_iff_rank_ge_witness :
    roleRequiredAllows "user" "guest" = false :=
  (authorize_iff_rank_ge.2 "guest" (by decide) (by decide) (by decide)).2
    "user" (by decide)

/-- C10: whenever authentication fails — the username resolves to no user, or
the stored hash does not check against the password — `login_user` returns
status 401 with the identical message "Invalid username or password", so the
two causes are observationally indistinguishable. -/
theorem login_failure_uniform (chk : String → String → Bool) (users : List User)
    (username password : String) (hu : username ≠ "") (hp : password ≠ "")
    (hfail : users.find? (fun u => u.username == username) = none ∨
      ∃ user, users.find? (fun u => u.username == username) = some user ∧
        chk user.password_hash password = false) :
    login_user chk users username password =
      LoginResponse.err 401 "Invalid username or password" := by
  unfold login_user authenticate_user
  rw [if_neg (by simp [hu, hp])]
  rcases hfail with h | ⟨user, hfind, hchk⟩
  · rw [h]
  · rw [hfind]
    simp [hchk]

/-- Witness for C10: both an unknown username and a wrong password for a known
username produce the same 401 response. -/
theorem login_failure_uniform_witness :
    login_user (fun _ _ => false)
        [{ id := 1, username := "alice", password_hash := "h", role := "user" }]
        "alice" "pw" =
      LoginResponse.err 401 "Invalid username or password" :=
  login_failure_uniform (fun _ _ => false)
    [{ id := 1, username := "alice", password_hash := "h", role := "user" }]
    "alice" "pw" (by decide) (by decide)
    (Or.inr ⟨{ id := 1, username := "alice", password_hash := "h", role := "user" },
      rfl, rfl⟩)

/-- C4: the guard on `POST /orders` is `role_required('user')`
(`routes/order_bp.py` line 22), whose hierarchy check admits every role of
rank ≥ 1 — so tokens with role "admin" or "super_admin" pass the guard instead
of being rejected with Forbidden, contradicting the claim and the repository's
own test `test_admin_cannot_create_order`. -/
theorem order_guard_admits_admin :
    roleRequiredAllows "user" "admin" = true ∧
    roleRequiredAllows "user" "super_admin" = true := by decide

/-- C3: checkout of an existing cart with zero lines fails with the
empty-cart error and leaves the committed datastore exactly as it was:
no Order or OrderItem is created. -/
theorem checkout_empty_cart_fails (st : Store)
    (customer_id : Nat) (cart : Cart)
    (hcart : st.carts.find? (fun c => c.customer_id == customer_id) = some cart)
    (hempty : st.cartItems.filter (fun it => it.cart_id == cart.id) = []) :
    checkout_cart st customer_id =
      (st, Except.error "Cannot checkout. Shopping cart is empty.") := by
  unfold checkout_cart get_cart_by_customer
  rw [hcart]
  simp [hempty]

/-- Witness for C3: a concrete customer whose cart exists and has no lines. -/
theorem checkout_empty_cart_fails_witness :
    checkout_cart emptyCartStoreW 1 =
      (emptyCartStoreW, Except.error "Cannot checkout. Shopping cart is empty.") :=
  checkout_empty_cart_fails emptyCartStoreW 1
    { id := 1, customer_id := 1 } rfl rfl

/-- C1: for a customer whose cart exists, every call to `checkout_cart`
fails — either on the empty-cart check or on the failing import of
order_service in the non-empty branch — and the committed datastore is returned
exactly as it was, so no Order or OrderItem is ever persisted and the
cart's lines are exactly as they were before the call; in particular a
committed Order can never coexist with a non-empty or partially cleared
source cart. -/
theorem checkout_failure_leaves_store_unchanged (st : Store)
    (customer_id : Nat) (cart : Cart)
    (hcart : st.carts.find? (fun c => c.customer_id == customer_id) = some cart) :
    (∃ e, (checkout_cart st customer_id).2 = Except.error e) ∧
    (checkout_cart st customer_id).1 = st := by
  unfold checkout_cart get_cart_by_customer
  rw [hcart]
  simp only []
  cases (st.cartItems.filter (fun it => it.cart_id == cart.id)).isEmpty with
  | true => exact ⟨⟨_, rfl⟩, rfl⟩
  | false => exact ⟨⟨_, rfl⟩, rfl⟩

/-- Witness for C1: the concrete non-empty cart checks out to an error with
the committed store unchanged. -/
theorem checkout_failure_leaves_store_unchanged_witness :
    (∃ e, (checkout_cart checkoutStoreW 1).2 = Except.error e) ∧
    (checkout_cart checkoutStoreW 1).1 = checkoutStoreW :=
  checkout_failure_leaves_store_unchanged checkoutStoreW 1
    { id := 1, customer_id := 1 } rfl

/-- C2: a successful checkout is impossible in the source, so the claimed
post-state of a successful checkout is never produced: for the concrete
non-empty cart (one line, quantity 2, subtotal 20) the call fails with the
ImportError raised when `shopping_cart_service.py` line 174 imports
`services.order_service` (whose line 1 imports the nonexistent
`models.Order_Item`), the cart keeps its line and no Order is created —
while the claim (and the repository's own `test_checkout_cart`, which
expects HTTP 200) says the checkout succeeds, empties the cart and creates
one Order with the matching totals. -/
theorem checkout_nonempty_cart_never_succeeds :
    checkout_cart checkoutStoreW 1 =
      (checkoutStoreW,
       Except.error "ImportError: cannot import name Order_Item from models") := by
  rfl

/-- Concrete store holding an order (id 1) with one OrderItem frozen at
`price_at_order = 10`, `subtotal = 10`. -/
def orderItemStoreW : Store :=
  { products := [{ id := 1, price := 10, stock_quantity := 5, deleted_at := none }],
    customers := [1], carts := [], cartItems := [],
    orders := [{ id := 1, customer_id := 1, total_price := 10 }],
    orderItems := [{ order_id := 1, product_id := 1, quantity := 1,
                     price_at_order := 10, subtotal := 10 }],
    nextId := 2 }

/-- Counterexample to C6's claim that only the cart-mutation and checkout
operations ever write an OrderItem's fields: `OrderItemService.
update_item_in_order` — an order-item CRUD operation, not a cart mutation and
not checkout — rewrites an existing OrderItem's quantity and subtotal. -/
theorem order_item_subtotal_written_outside_checkout :
    (update_item_in_order orderItemStoreW 1 1 3).1.orderItems =
      [{ order_id := 1, product_id := 1, quantity := 3,
         price_at_order := 10, subtotal := 30 }] ∧
    orderItemStoreW.orderItems =
      [{ order_id := 1, product_id := 1, quantity := 1,
         price_at_order := 10, subtotal := 10 }] := by
  norm_num [update_item_in_order, orderItemStoreW, List.find?]

/-- C6 (amended): changing a Product's price through
`ProductService.update_product` never alters any OrderItem's `price_at_order`
or `subtotal` nor any Order's `total_price` — the order tables are untouched
by every branch of the product update. -/
theorem product_price_update_preserves_orders (st : Store) (product_id : Nat)
    (price : ℚ) :
    (update_product_price st product_id price).1.orderItems = st.orderItems ∧
    (update_product_price st product_id price).1.orders = st.orders := by
  unfold update_product_price
  cases st.products.find? (fun p => p.id == product_id) <;> simp
  split <;> simp

/-- Concrete store whose only product is soft-deleted
(`deleted_at = some 7`) and whose cart is empty. -/
def softDeletedStoreW : Store :=
  { products := [{ id := 1, price := 10, stock_quantity := 5, deleted_at := some 7 }],
    customers := [1],
    carts := [{ id := 1, customer_id := 1 }],
    cartItems := [], orders := [], orderItems := [], nextId := 2 }

/-- Counterexample to C8: `add_item_to_cart` looks the product up with
`Product.query.get`, which ignores `deleted_at`, so adding a soft-deleted
product succeeds instead of failing with ProductNotFound. -/
theorem add_soft_deleted_product_succeeds :
    (add_item_to_cart softDeletedStoreW 1 1 2).2 =
      Except.ok { id := 2, cart_id := 1, product_id := 1,
                  quantity := 2, subtotal := 20 } := by
  norm_num [add_item_to_cart, get_cart_by_customer, softDeletedStoreW, List.find?]

/-- C8 (amended): with quantity > 0 and the customer's cart present,
`add_item_to_cart` fails with "Product not found." exactly when `product_id`
resolves to no product row at all — and then the committed state is unchanged;
whenever a row exists, soft-deleted or not, the call succeeds. -/
theorem add_item_product_lookup_ignores_soft_delete (st : Store)
    (customer_id product_id : Nat) (quantity : Int) (cart : Cart)
    (hq : 0 < quantity)
    (hcart : st.carts.find? (fun c => c.customer_id == customer_id) = some cart) :
    (st.products.find? (fun p => p.id == product_id) = none →
       add_item_to_cart st customer_id product_id quantity =
         (st, Except.error "Product not found.")) ∧
    (∀ product, st.products.find? (fun p => p.id == product_id) = some product →
       ∃ st' item,
         add_item_to_cart st customer_id product_id quantity =
           (st', Except.ok item)) := by
  constructor
  · intro hnone
    unfold add_item_to_cart get_cart_by_customer
    rw [if_neg (by omega)]
    rw [hcart]
    simp [hnone]
  · intro product hsome
    unfold add_item_to_cart get_cart_by_customer
    rw [if_neg (by omega)]
    rw [hcart]
    simp only [hsome]
    cases st.cartItems.find?
        (fun it => it.cart_id == cart.id && it.product_id == product_id) with
    | none => exact ⟨_, _, rfl⟩
    | some item => exact ⟨_, _, rfl⟩

/-- Witness for C8 (amended): product id 9 resolves to nothing, the add fails
and the store is unchanged. -/
theorem add_item_product_lookup_ignores_soft_delete_witness :
    add_item_to_cart softDeletedStoreW 1 9 2 =
      (softDeletedStoreW, Except.error "Product not found.") :=
  (add_item_product_lookup_ignores_soft_delete softDeletedStoreW 1 9 2
    { id := 1, customer_id := 1 } (by decide) rfl).1 rfl

/-- C9: `update_item_quantity` rejects a non-positive quantity before any
lookup or write, leaving the store unchanged; for a positive quantity it
replaces (not accumulates) the line's quantity and recomputes the subtotal
from the product's current price. -/
theorem update_item_quantity_replaces (st : Store) (item_id : Nat) :
    (∀ quantity : Int, quantity ≤ 0 →
       update_item_quantity st item_id quantity =
         (st, Except.error "Quantity must be greater than zero.")) ∧
    (∀ (quantity : Int) (item : CartItem) (product : Product),
       0 < quantity →
       get_item_by_id st item_id = some item →
       st.products.find? (fun p => p.id == item.product_id) = some product →
       ∃ st' item',
         update_item_quantity st item_id quantity = (st', Except.ok item') ∧
         item'.quantity = quantity ∧
         item'.subtotal = (quantity : ℚ) * product.price ∧
         item'.id = item.id ∧ item'.cart_id = item.cart_id ∧
         item'.product_id = item.product_id) := by
  constructor
  · intro quantity hq
    unfold update_item_quantity
    rw [if_pos hq]
  · intro quantity item product hq hitem hprod
    unfold update_item_quantity
    rw [if_neg (by omega)]
    rw [hitem]
    simp only [hprod]
    exact ⟨_, _, rfl, rfl, rfl, rfl, rfl, rfl⟩

/-- Witness for C9: replacing the quantity of the concrete line (quantity 2,
subtotal 20) with 5 yields quantity exactly 5 and subtotal 5 × 10. -/
theorem update_item_quantity_replaces_witness :
    ∃ st' item',
      update_item_quantity checkoutStoreW 2 5 = (st', Except.ok item') ∧
      item'.quantity = 5 ∧ item'.subtotal = (5 : ℚ) * 10 ∧
      item'.id = 2 ∧ item'.cart_id = 1 ∧ item'.product_id = 1 :=
  (update_item_quantity_replaces checkoutStoreW 2).2 5
    { id := 2, cart_id := 1, product_id := 1, quantity := 2, subtotal := 20 }
    { id := 1, price := 10, stock_quantity := 5, deleted_at := none }
    (by decide) rfl rfl

/-- C5: adding the same product twice with positive quantities accumulates
into a single line — never two — whose quantity is `q1 + q2` and whose
subtotal is recomputed as `(q1 + q2) ×` the product's current price; the
first add creates the line with `subtotal = price × q1`. -/
theorem add_item_twice_accumulates (st : Store) (customer_id product_id : Nat)
    (cart : Cart) (product : Product) (q1 q2 : Int)
    (hq1 : 0 < q1) (hq2 : 0 < q2)
    (hcart : st.carts.find? (fun c => c.customer_id == customer_id) = some cart)
    (hprod : st.products.find? (fun p => p.id == product_id) = some product)
    (hnoline : st.cartItems.find?
      (fun it => it.cart_id == cart.id && it.product_id == product_id) = none)
    (hfresh : ∀ it ∈ st.cartItems, it.id ≠ st.nextId) :
    ∃ st1 item1 st2 item2,
      add_item_to_cart st customer_id product_id q1 = (st1, Except.ok item1) ∧
      item1.quantity = q1 ∧
      item1.subtotal = product.price * (q1 : ℚ) ∧
      add_item_to_cart st1 customer_id product_id q2 = (st2, Except.ok item2) ∧
      item2.quantity = q1 + q2 ∧
      item2.subtotal = ((q1 + q2 : Int) : ℚ) * product.price ∧
      st2.cartItems.filter
        (fun it => it.cart_id == cart.id && it.product_id == product_id) = [item2] := by
  have hq1' : ¬ q1 ≤ 0 := by omega
  have hq2' : ¬ q2 ≤ 0 := by omega
  refine ⟨{ st with
      cartItems := st.cartItems ++
        [{ id := st.nextId, cart_id := cart.id, product_id := product_id,
           quantity := q1, subtotal := product.price * (q1 : ℚ) }],
      nextId := st.nextId + 1 },
    { id := st.nextId, cart_id := cart.id, product_id := product_id,
      quantity := q1, subtotal := product.price * (q1 : ℚ) },
    { st with
      cartItems := st.cartItems ++
        [{ id := st.nextId, cart_id := cart.id, product_id := product_id,
           quantity := q1 + q2, subtotal := ((q1 + q2 : Int) : ℚ) * product.price }],
      nextId := st.nextId + 1 },
    { id := st.nextId, cart_id := cart.id, product_id := product_id,
      quantity := q1 + q2, subtotal := ((q1 + q2 : Int) : ℚ) * product.price },
    ?_, rfl, rfl, ?_, rfl, rfl, ?_⟩
  · unfold add_item_to_cart get_cart_by_customer
    rw [if_neg hq1', hcart]
    simp only [hprod, hnoline]
  · unfold add_item_to_cart get_cart_by_customer
    rw [if_neg hq2']
    simp only [hcart, hprod, List.find?_append, hnoline, Option.none_or,
      List.find?_cons, beq_self_eq_true, Bool.and_self, if_pos]
    simp only [List.map_append, List.map_cons, List.map_nil,
      beq_self_eq_true, if_pos, Prod.mk.injEq, Except.ok.injEq]
    constructor
    · congr 1
      have hmap : st.cartItems.map (fun it =>
          if it.id == st.nextId then
            { id := st.nextId, cart_id := cart.id, product_id := product_id,
              quantity := q1 + q2,
              subtotal := ((q1 + q2 : Int) : ℚ) * product.price }
          else it) = st.cartItems := by
        have hcongr := List.map_congr_left (l := st.cartItems)
          (f := fun it =>
            if it.id == st.nextId then
              ({ id := st.nextId, cart_id := cart.id, product_id := product_id,
                 quantity := q1 + q2,
                 subtotal := ((q1 + q2 : Int) : ℚ) * product.price } : CartItem)
            else it)
          (g := id)
          (fun it hit => by
            have hne : (it.id == st.nextId) = false :=
              beq_eq_false_iff_ne.mpr (hfresh it hit)
            simp [hne])
        rw [hcongr, List.map_id]
      rw [hmap]
    · constructor
  · rw [List.filter_append]
    have hnil : st.cartItems.filter
        (fun it => it.cart_id == cart.id && it.product_id == product_id) = [] :=
      List.filter_eq_nil_iff.mpr (List.find?_eq_none.mp hnoline)
    rw [hnil]
    simp

/-- Witness for C5: adding product 1 (price 10) with quantity 2 and then 3 to
the concrete empty cart yields a single line of quantity 5. -/
theorem add_item_twice_accumulates_witness :
    ∃ st1 item1 st2 item2,
      add_item_to_cart emptyCartStoreW 1 1 2 = (st1, Except.ok item1) ∧
      item1.quantity = 2 ∧
      item1.subtotal = (10 : ℚ) * ((2 : Int) : ℚ) ∧
      add_item_to_cart st1 1 1 3 = (st2, Except.ok item2) ∧
      item2.quantity = (2 + 3 : Int) ∧
      item2.subtotal = (((2 + 3 : Int) : Int) : ℚ) * (10 : ℚ) ∧
      st2.cartItems.filter
        (fun it => it.cart_id == 1 && it.product_id == 1) = [item2] :=
  add_item_twice_accumulates emptyCartStoreW 1 1 { id := 1, customer_id := 1 }
    { id := 1, price := 10, stock_quantity := 5, deleted_at := none } 2 3
    (by decide) (by decide) rfl rfl rfl (by decide)

end Ecommerce
